import Mathlib

/-!
Verification of the cluster-validation, menu, lesson-selection and web-registry
logic of the `as_strongconsistancy` tutorial repository, shallowly embedded in
Lean.  Python strings are modelled as `List Char`; Python `str.split(sep)`,
`str.strip()`, `str.lower()` and `int(str)` are modelled by executable
functions below; `dict(...)` construction from a sequence of key/value pairs is
modelled by an association list with last-binding-wins lookup, and raising a
Python exception is modelled by `Option`/explicit exception constructors.
-/

namespace SCDemo

/-- Python strings, modelled as their character lists. -/
abbrev Str := List Char

/-! Section: Python `str.split(sep)` for a one-character separator -/

/-- Helper for `splitCh`: `acc` holds the (reversed) characters of the current
chunk. Mirrors CPython `str.split` with an explicit separator: `n` separators
always yield `n + 1` chunks, and splitting the empty string yields `[[]]`. -/
def splitChAux (c : Char) : List Char → List Char → List (List Char)
  | [], acc => [acc.reverse]
  | x :: xs, acc =>
      if x = c then acc.reverse :: splitChAux c xs []
      else splitChAux c xs (x :: acc)

/-- Python `s.split(c)` for a single-character separator `c`. -/
def splitCh (c : Char) (s : List Char) : List (List Char) :=
  splitChAux c s []

/-- Reassemble chunks with a one-character separator (used to describe the
well-formed `k=v;k=v;…` info strings the parser consumes). -/
def interc (c : Char) : List Str → Str
  | [] => []
  | [p] => p
  | p :: ps => p ++ c :: interc c ps

/-! Section: Python `str.strip`, `str.lower`, `int(str)` -/

/-- Python `s.strip()` (whitespace trimmed from both ends). -/
def pyStrip (s : Str) : Str :=
  ((s.dropWhile Char.isWhitespace).reverse.dropWhile Char.isWhitespace).reverse

/-- Python `s.lower()` (per-character lowercasing). -/
def pyLower (s : Str) : Str :=
  s.map Char.toLower

/-- Numeric value of a digit list (most significant first). -/
def digitsVal (ds : List Char) : Nat :=
  ds.foldl (fun n d => 10 * n + (d.toNat - 48)) 0

/-- Python `int(s)` on a decimal string: surrounding whitespace is allowed, an
optional single leading sign, then a nonempty run of digits; anything else
raises `ValueError`, modelled as `none`. -/
def pyInt (s : Str) : Option Int :=
  match pyStrip s with
  | [] => none
  | d :: ds =>
      if d = '+' then
        if ds ≠ [] ∧ ds.all Char.isDigit then some (digitsVal ds) else none
      else if d = '-' then
        if ds ≠ [] ∧ ds.all Char.isDigit then some (-(digitsVal ds : Int)) else none
      else
        if (d :: ds).all Char.isDigit then some (digitsVal (d :: ds)) else none

/-! Section: Python `dict` built from key/value pairs -/

/-- Lookup in an association list built by Python's `dict(pairs)`: a later
binding of the same key overrides an earlier one. -/
def dictGet (ps : List (Str × Str)) (k : Str) : Option Str :=
  match ps with
  | [] => none
  | (k', v) :: rest =>
      match dictGet rest k with
      | some v' => some v'
      | none => if k' = k then some v else none

/-- Model of `item.split('=')`: it must produce exactly a key and a value; any other shape
makes Python's `dict(...)` constructor raise `ValueError` (modelled `none`). -/
def toPair (item : Str) : Option (Str × Str) :=
  match splitCh '=' item with
  | [k, v] => some (k, v)
  | _ => none

/-- Model of `dict(item.split('=') for item in items)`: fails (raises) as soon as one
item does not split into exactly two parts. -/
def buildParams : List Str → Option (List (Str × Str))
  | [] => some []
  | item :: rest =>
      match toPair item with
      | none => none
      | some p =>
          match buildParams rest with
          | none => none
          | some ps => some (p :: ps)

/-! Section: The namespace-info parser
(`ClusterValidator.verify_sc_enabled`, validation.py lines 28–42, and the
identical loop body of `StrongConsistencyTutorial.verify_sc_enabled`,
sc_demo.py lines 826–841; the web `get_cluster_status` endpoint parses the
same `k=v;k=v;…` format with the same defaults) -/

/-- The namespace-info dictionary assembled from a parsed info response. -/
structure NsInfo where
  strong_consistency : Bool
  dead_partitions : Int
  unavailable_partitions : Int
  ns_cluster_size : Int
  replication_factor : Str
deriving DecidableEq, Repr

/-- Model of `int(params.get(k, 0))`: when the key is absent `int(0) = 0`; when present
the stored string goes through Python `int`, raising (`none`) if malformed. -/
def pyIntGet (ps : List (Str × Str)) (k : Str) : Option Int :=
  match dictGet ps k with
  | none => some 0
  | some v => pyInt v

/-- Flag/counter extraction from the parsed `params` dictionary
(validation.py lines 31–42): the three `int(...)` calls may raise
(`none`). -/
def extractInfo (ps : List (Str × Str)) : Option (Bool × NsInfo) :=
  match pyIntGet ps "dead_partitions".data,
        pyIntGet ps "unavailable_partitions".data,
        pyIntGet ps "ns_cluster_size".data with
  | some dead, some unavail, some nsSize =>
      let sc : Bool := (dictGet ps "strong-consistency".data).getD "false".data == "true".data
      some (sc,
        { strong_consistency := sc
          dead_partitions := dead
          unavailable_partitions := unavail
          ns_cluster_size := nsSize
          replication_factor := (dictGet ps "replication-factor".data).getD "N/A".data })
  | _, _, _ => none

/-- Body of the per-node branch of `verify_sc_enabled`:
`params = dict(item.split('=') for item in result.split(';') if '=' in item)`
followed by the flag/counter extraction.  `none` models a `ValueError`
escaping this block (either from `dict(...)` or from an `int(...)` call). -/
def parseNsInfo (result : Str) : Option (Bool × NsInfo) :=
  match buildParams ((splitCh ';' result).filter fun item => item.contains '=') with
  | none => none
  | some ps => extractInfo ps

/-! Section: The two `verify_sc_enabled` implementations -/

/-- Which Python exception class a raised exception belongs to, as far as the
`except` clauses of this repository distinguish them. -/
inductive ExnClass
  | aerospike   -- an `aerospike.exception.AerospikeError`
  | other       -- any other exception class (e.g. `ValueError`, `TypeError`)
deriving DecidableEq, Repr

/-- One entry of the `client.info_all` response map: the `(err, result)` pair
iterated by `for node, (err, result) in response.items()`. -/
structure NodeResp where
  err : Option Str
  result : Option Str
deriving DecidableEq, Repr

/-- Behaviour of the `client.info_all(info_cmd)` call: it either raises or
returns its response map (modelled as the list of entries in iteration
order; the node names are never used). -/
inductive InfoAllOutcome
  | raises (cls : ExnClass) (msg : Str)
  | returns (resp : List NodeResp)
deriving DecidableEq, Repr

/-- Python truthiness of `result` in `if err is None and result:`. -/
def truthy : Option Str → Bool
  | none => false
  | some s => !s.isEmpty

/-- Modelled message of the `ValueError` raised while parsing an info
response; no claim inspects its text. -/
def valueErrorMsg : Str := "invalid literal in info response".data

/-- Outcome of the `for node, (err, result) in response.items():` loop. -/
inductive LoopOut
  | raiseErr (msg : Str)          -- a `ValueError` escaped the loop body
  | found (flag : Bool) (info : NsInfo)
  | noneFound                        -- no node had `err is None and result`
deriving DecidableEq, Repr

/-- The response loop of `verify_sc_enabled`: the first node with no error and
a truthy result string is parsed and returned. -/
def loopNodes : List NodeResp → LoopOut
  | [] => .noneFound
  | n :: rest =>
      if n.err = none ∧ truthy n.result then
        match parseNsInfo (n.result.getD []) with
        | some (f, d) => .found f d
        | none => .raiseErr valueErrorMsg
      else loopNodes rest

/-- The second component of the pair returned by `verify_sc_enabled`: either
the parsed info dictionary or a message string. -/
inductive InfoVal
  | msg (s : Str)
  | dict (d : NsInfo)
deriving DecidableEq, Repr

/-- Result of calling a Python function: a normal return value or a
propagated exception. -/
inductive PyResult
  | ret (flag : Bool) (info : InfoVal)
  | exn (cls : ExnClass) (msg : Str)
deriving DecidableEq, Repr

/-- Embedding of `ClusterValidator.verify_sc_enabled` (validation.py lines 15–47): the
whole body sits under `except Exception`, so every raised exception is
converted to `(False, str(e))`. -/
def validator_verify_sc_enabled (hasClient : Bool) (io : InfoAllOutcome) : PyResult :=
  if !hasClient then .ret false (.msg "Not connected".data)
  else
    match io with
    | .raises _ m => .ret false (.msg m)
    | .returns resp =>
        match loopNodes resp with
        | .found f d => .ret f (.dict d)
        | .noneFound => .ret false (.msg "Could not get namespace info".data)
        | .raiseErr m => .ret false (.msg m)

/-- Embedding of `StrongConsistencyTutorial.verify_sc_enabled` (sc_demo.py lines 818–847):
identical body, but the `except` clause catches only
`ae_exception.AerospikeError`; any other exception propagates. -/
def demo_verify_sc_enabled (hasClient : Bool) (io : InfoAllOutcome) : PyResult :=
  if !hasClient then .ret false (.msg "Not connected".data)
  else
    match io with
    | .raises .aerospike m => .ret false (.msg m)
    | .raises .other m => .exn .other m
    | .returns resp =>
        match loopNodes resp with
        | .found f d => .ret f (.dict d)
        | .noneFound => .ret false (.msg "Could not get namespace info".data)
        | .raiseErr m => .exn .other m

/-! Section: Cluster validation: connection phase and compact mode -/

/-- Behaviour of the `self.client.get_nodes()` connectivity probe: it either
succeeds or raises an `AerospikeError` (the only class caught there). -/
inductive ProbeOutcome
  | ok
  | aeroErr (msg : Str)
deriving DecidableEq, Repr

/-- Outcome of the connection-check phase of a validation run: either the
function falls through to the info checks, or it returns `False` early. -/
inductive ConnPhase
  | proceed
  | failed
deriving DecidableEq, Repr

/-- Connection-check phase of `ClusterValidator.validate` (validation.py lines
61–84).  Returns the phase outcome together with the number of reconnect
(`self.connect()`) attempts made: this code contains no reconnect call, so the
count is always `0`. -/
def validator_connCheck (hasClient : Bool) (probe : ProbeOutcome) : ConnPhase × Nat :=
  if !hasClient then (.failed, 0)
  else
    match probe with
    | .ok => (.proceed, 0)
    | .aeroErr _ => (.failed, 0)

/-- Connection-check phase of
`StrongConsistencyTutorial.validate_and_fix_cluster` (sc_demo.py lines
656–691): on a missing client or a probe failure it attempts `self.connect()`
exactly once (`reconnectOk` is that call's outcome), proceeding on success and
returning `False` on failure. -/
def demo_connCheck (hasClient : Bool) (probe : ProbeOutcome) (reconnectOk : Bool) :
    ConnPhase × Nat :=
  if !hasClient then
    if reconnectOk then (.proceed, 1) else (.failed, 1)
  else
    match probe with
    | .ok => (.proceed, 0)
    | .aeroErr _ => if reconnectOk then (.proceed, 1) else (.failed, 1)

/-- The `issues_found` flag computed from `(sc_enabled, info)` (validation.py
lines 90–96 / sc_demo.py lines 695–703): an issue exists when `info` is not a
dictionary, or some counter is `> 0`, or the flag is false. -/
def issuesFound (sc : Bool) (info : InfoVal) : Bool :=
  match info with
  | .dict d =>
      decide (0 < d.dead_partitions) || decide (0 < d.unavailable_partitions) || !sc
  | .msg _ => true

/-- Embedding of `ClusterValidator.validate(compact=True)` (validation.py lines 49–114):
connection checks, then `verify_sc_enabled`, then `return not issues_found`.
`none` would model a propagated exception; this variant never raises. -/
def validator_validate_compact (hasClient : Bool) (probe : ProbeOutcome)
    (io : InfoAllOutcome) : Option Bool :=
  match validator_connCheck hasClient probe with
  | (.failed, _) => some false
  | (.proceed, _) =>
      match validator_verify_sc_enabled true io with
      | .ret sc info => some (!issuesFound sc info)
      | .exn _ _ => none

/-- Embedding of `StrongConsistencyTutorial.validate_and_fix_cluster(compact=True)`
(sc_demo.py lines 648–721): same shape, with the one-shot reconnect phase and
the narrower exception handling of `demo_verify_sc_enabled`. -/
def demo_validate_compact (hasClient : Bool) (probe : ProbeOutcome)
    (reconnectOk : Bool) (io : InfoAllOutcome) : Option Bool :=
  match demo_connCheck hasClient probe reconnectOk with
  | (.failed, _) => some false
  | (.proceed, _) =>
      match demo_verify_sc_enabled true io with
      | .ret sc info => some (!issuesFound sc info)
      | .exn _ _ => none

/-- A connection failure in the sense of the validation code: no client
handle, or the connectivity probe raising. -/
def connFailure (hasClient : Bool) (probe : ProbeOutcome) : Prop :=
  hasClient = false ∨ probe ≠ ProbeOutcome.ok

instance (hasClient : Bool) (probe : ProbeOutcome) :
    Decidable (connFailure hasClient probe) := by
  unfold connFailure; infer_instance

/-! Section: The interactive menu
(`sc_tutorial/ui/menu.py` lines 8–53; `sc_demo.py` lines 405–448 is
branch-for-branch identical in its read handling and dispatch) -/

/-- What one `input()` call produced: a line, end-of-input (`EOFError`), or a
keyboard interrupt. -/
inductive ReadOutcome
  | line (s : Str)
  | eof
  | interrupt
deriving DecidableEq, Repr

/-- Subshell opened before looping again. -/
inductive ShellAction
  | aql
  | asadm
deriving DecidableEq, Repr

/-- Effect of one iteration of the menu loop: return a choice string to the
caller, raise `SystemExit(code)`, loop again (possibly after a subshell), or
let an exception escape (never constructed by the embedded code). -/
inductive MenuStep
  | ret (choice : Str)
  | exit (code : Nat)
  | loop (shell : Option ShellAction)
  | raiseExn (msg : Str)
deriving DecidableEq, Repr

/-- Model of `input(...).strip().lower()`. -/
def stripLower (s : Str) : Str := pyLower (pyStrip s)

/-- Dispatch on the normalised choice string (menu.py lines 37–53). -/
def menuLine (choice : Str) : MenuStep :=
  if choice ∈ [([] : Str), "c".data, "continue".data] then .ret "continue".data
  else if choice ∈ ["a".data, "aql".data, "1".data] then .loop (some .aql)
  else if choice ∈ ["s".data, "asadm".data, "2".data] then .loop (some .asadm)
  else if choice ∈ ["v".data, "validate".data, "3".data] then .ret "validate".data
  else if choice ∈ ["q".data, "quit".data, "exit".data] then .exit 0
  else .loop none

/-- One iteration of `interactive_menu`'s `while True:` loop, from the
`input()` call onwards (menu.py lines 29–53). -/
def menuStep : ReadOutcome → MenuStep
  | .interrupt => .exit 0
  | .eof => .ret "continue".data
  | .line raw => menuLine (stripLower raw)

/-- The union of all choice strings recognised by some menu branch. -/
def recognisedChoices : List Str :=
  [([] : Str), "c".data, "continue".data,
   "a".data, "aql".data, "1".data,
   "s".data, "asadm".data, "2".data,
   "v".data, "validate".data, "3".data,
   "q".data, "quit".data, "exit".data]

/-! Section: Lesson selection (`StrongConsistencyTutorial.run_tutorial`,
sc_tutorial/tutorial.py lines 157–175) -/

/-- Tags for the ten lesson classes of the registry. -/
inductive LessonClass
  | aerolab | introduction | configuration | basicOperations | consistency
  | concurrentWrites | generation | errorHandling | clusterBehavior | bestPractices
deriving DecidableEq, Repr

/-- The fixed ten-entry lesson registry `all_lessons` (tutorial.py lines
158–169). -/
def all_lessons : List (Str × Str × LessonClass) :=
  [("0".data, "AeroLab Setup".data, .aerolab),
   ("1".data, "Introduction".data, .introduction),
   ("2".data, "Configuration".data, .configuration),
   ("3".data, "Basic Operations".data, .basicOperations),
   ("4".data, "Consistency Levels".data, .consistency),
   ("5".data, "Concurrent Writes".data, .concurrentWrites),
   ("6".data, "Generation Conflicts".data, .generation),
   ("7".data, "Error Handling".data, .errorHandling),
   ("8".data, "Cluster Behavior".data, .clusterBehavior),
   ("9".data, "Best Practices".data, .bestPractices)]

/-- The lesson-selection step of `run_tutorial` (tutorial.py lines 171–175):
`if lessons:` is Python truthiness, so both `None` and the empty list take the
skip-lesson-0 branch; otherwise the registry is filtered by membership of the
number string in the request. -/
def selectLessons (lessons : Option (List Str)) : List (Str × Str × LessonClass) :=
  match lessons with
  | some ls =>
      if !ls.isEmpty then all_lessons.filter (fun e => decide (e.1 ∈ ls))
      else all_lessons.drop 1
  | none => all_lessons.drop 1

/-! Section: The web lesson registry and JSON endpoints (`src/web/app.py`) -/

/-- One entry of the static `LESSONS` list; only the fields the endpoints
inspect (`id`) plus the identifying title are embedded — the remaining fields
are static presentation text never read by the route handlers. -/
structure WebLesson where
  id : Nat
  title : Str
deriving DecidableEq, Repr

/-- The static `LESSONS` registry (app.py lines 36–1845): 25 entries with the
`id` and `title` of each dictionary. -/
def LESSONS : List WebLesson :=
  [⟨0, "Setting Up SC with AeroLab".data⟩,
   ⟨1, "Introduction to Strong Consistency".data⟩,
   ⟨2, "Configuration and Setup".data⟩,
   ⟨3, "Basic SC Operations".data⟩,
   ⟨4, "Consistency Levels".data⟩,
   ⟨5, "Concurrent Write Ordering".data⟩,
   ⟨6, "Optimistic Locking with Generations".data⟩,
   ⟨7, "Error Handling".data⟩,
   ⟨8, "Cluster Behavior Under Failure".data⟩,
   ⟨9, "Adding Nodes to SC Cluster".data⟩,
   ⟨10, "Removing Nodes from SC Cluster".data⟩,
   ⟨11, "Validating Partition Health".data⟩,
   ⟨12, "Reviving Dead Partitions".data⟩,
   ⟨13, "Multi-Node Cluster Setup".data⟩,
   ⟨14, "Migrations & Rebalancing".data⟩,
   ⟨15, "SC Monitoring & Alerting".data⟩,
   ⟨16, "Best Practices".data⟩,
   ⟨17, "Troubleshooting Guide".data⟩,
   ⟨18, "Clock Synchronization".data⟩,
   ⟨19, "Clean vs Unclean Shutdowns".data⟩,
   ⟨20, "Commit-to-Device".data⟩,
   ⟨21, "Auto-Revive Feature".data⟩,
   ⟨22, "SC Limitations & Caveats".data⟩,
   ⟨23, "SC Error Codes".data⟩,
   ⟨24, "Performance Tuning".data⟩]

/-- Endpoint `GET /api/lessons` (app.py lines 1861–1864): returns the whole registry. -/
def get_lessons : List WebLesson := LESSONS

/-- JSON payload returned by `GET /api/lessons/{lesson_id}`. -/
inductive ApiResp
  | lessonPayload (l : WebLesson)
  | errorPayload (msg : Str)
deriving DecidableEq, Repr

/-- Endpoint `GET /api/lessons/<lesson_id>` (app.py lines 1867–1872):
`if 0 <= lesson_id < len(LESSONS): return {"lesson": LESSONS[lesson_id]}`,
else the error payload.  `lesson_id` is the route's parsed integer. -/
def get_lesson (lesson_id : Int) : ApiResp :=
  if 0 ≤ lesson_id ∧ lesson_id < (LESSONS.length : Int) then
    .lessonPayload (LESSONS.getD lesson_id.toNat ⟨0, []⟩)
  else
    .errorPayload "Lesson not found".data

/-! Section: Claim-side description of the extraction (for C2) -/

/-- `item.split('=')` image of a key/value pair: `k=v`. -/
def encodeItem (p : Str × Str) : Str := p.1 ++ '=' :: p.2

/-- The semicolon-delimited `k=v;k=v;…` encoding of a pair list. -/
def encodePairs (pairs : List (Str × Str)) : Str :=
  interc ';' (pairs.map encodeItem)

/-- A pair is well formed for the `k=v;…` encoding when neither side contains
a separator character. -/
def wfPair (p : Str × Str) : Prop :=
  ';' ∉ p.1 ∧ ';' ∉ p.2 ∧ '=' ∉ p.1 ∧ '=' ∉ p.2

instance (p : Str × Str) : Decidable (wfPair p) := by
  unfold wfPair; infer_instance

/-- The strong-consistency flag as the claim describes it: the value bound to
`strong-consistency` (last binding wins), compared with `'true'`, defaulting
to false when the key is absent. -/
def infoFlag (pairs : List (Str × Str)) : Bool :=
  (dictGet pairs "strong-consistency".data).getD "false".data == "true".data

/-- A counter as the claim describes it: the integer value of the last binding
of `k`, defaulting to `0` when the key is absent. -/
def infoInt (pairs : List (Str × Str)) (k : Str) : Int :=
  match dictGet pairs k with
  | none => 0
  | some v => (pyInt v).getD 0

/-- The value bound to `k` (if any) is a valid Python integer literal. -/
def intOk (pairs : List (Str × Str)) (k : Str) : Bool :=
  match dictGet pairs k with
  | none => true
  | some v => (pyInt v).isSome

/-- Whether the response loop raises a `ValueError` (i.e. some selected node
result fails to parse). -/
def loopRaises (resp : List NodeResp) : Bool :=
  match loopNodes resp with
  | .raiseErr _ => true
  | _ => false

/-! Section: Lemmas about splitting and the encode/parse round trip -/

theorem splitChAux_eq_nil (c : Char) (acc : List Char) :
    splitChAux c [] acc = [acc.reverse] := rfl

theorem splitChAux_cons_self (c : Char) (r acc : List Char) :
    splitChAux c (c :: r) acc = acc.reverse :: splitChAux c r [] := by
  simp [splitChAux]

theorem splitChAux_not_mem (c : Char) (l r acc : List Char) (h : c ∉ l) :
    splitChAux c (l ++ r) acc = splitChAux c r (l.reverse ++ acc) := by
  induction l generalizing acc with
  | nil => simp
  | cons x xs ih =>
      simp only [List.cons_append, splitChAux, List.append_eq]
      rw [if_neg (by rintro rfl; exact h (List.mem_cons_self x xs))]
      rw [ih _ (fun hm => h (List.mem_cons_of_mem _ hm))]
      simp

theorem splitCh_single (c : Char) (l : List Char) (h : c ∉ l) :
    splitCh c l = [l] := by
  have h0 := splitChAux_not_mem c l [] [] h
  simpa [splitCh, splitChAux_eq_nil] using h0

theorem splitCh_sep (c : Char) (l r : List Char) (h : c ∉ l) :
    splitCh c (l ++ c :: r) = l :: splitCh c r := by
  unfold splitCh
  rw [splitChAux_not_mem c l (c :: r) [] h, splitChAux_cons_self]
  simp

theorem interc_cons_cons (c : Char) (p q : Str) (qs : List Str) :
    interc c (p :: q :: qs) = p ++ c :: interc c (q :: qs) := rfl

theorem splitCh_interc (c : Char) (parts : List Str) (hne : parts ≠ [])
    (h : ∀ p ∈ parts, c ∉ p) :
    splitCh c (interc c parts) = parts := by
  induction parts with
  | nil => exact absurd rfl hne
  | cons p ps ih =>
      cases ps with
      | nil => simpa [interc] using splitCh_single c p (h p (by simp))
      | cons q qs =>
          rw [interc_cons_cons, splitCh_sep c p _ (h p (by simp))]
          rw [ih (by simp) (fun x hx => h x (List.mem_cons_of_mem _ hx))]

theorem toPair_encodeItem (p : Str × Str) (hk : '=' ∉ p.1) (hv : '=' ∉ p.2) :
    toPair (encodeItem p) = some p := by
  unfold toPair encodeItem
  rw [splitCh_sep _ _ _ hk, splitCh_single _ _ hv]

theorem buildParams_encode (pairs : List (Str × Str))
    (h : ∀ p ∈ pairs, '=' ∉ p.1 ∧ '=' ∉ p.2) :
    buildParams (pairs.map encodeItem) = some pairs := by
  induction pairs with
  | nil => rfl
  | cons p ps ih =>
      have hp := h p (by simp)
      simp only [List.map_cons, buildParams]
      rw [toPair_encodeItem p hp.1 hp.2]
      rw [ih (fun x hx => h x (List.mem_cons_of_mem _ hx))]

theorem filter_encodeItem (pairs : List (Str × Str)) :
    (pairs.map encodeItem).filter (fun item => item.contains '=')
      = pairs.map encodeItem := by
  apply List.filter_eq_self.mpr
  intro a ha
  simp only [List.mem_map] at ha
  obtain ⟨p, _, rfl⟩ := ha
  simp [encodeItem, List.contains, List.elem_iff]

theorem pyIntGet_of_intOk (pairs : List (Str × Str)) (k : Str)
    (h : intOk pairs k = true) :
    pyIntGet pairs k = some (infoInt pairs k) := by
  unfold intOk at h
  cases hd : dictGet pairs k with
  | none => simp [pyIntGet, infoInt, hd]
  | some v =>
      rw [hd] at h
      obtain ⟨n, hn⟩ := Option.isSome_iff_exists.mp h
      simp [pyIntGet, infoInt, hd, hn]

theorem splitCh_filter_encode (pairs : List (Str × Str))
    (hwf : ∀ p ∈ pairs, wfPair p) :
    (splitCh ';' (encodePairs pairs)).filter (fun item => item.contains '=')
      = pairs.map encodeItem := by
  cases pairs with
  | nil => decide
  | cons p ps =>
      rw [encodePairs, splitCh_interc ';' _ (by simp) ?_, filter_encodeItem]
      intro q hq
      simp only [List.mem_map] at hq
      obtain ⟨x, hx, rfl⟩ := hq
      obtain ⟨h1, h2, -, -⟩ := hwf x hx
      simp only [encodeItem, List.mem_append, List.mem_cons, not_or]
      exact ⟨h1, by decide, h2⟩

/-- Claim C2: For every well-formed semicolon-delimited `key=value` info
response string (every item splits into exactly one key and one value, and
any value bound to the three counter keys is a valid integer literal), the
`verify_sc_enabled` parser extracts the strong-consistency flag as
`value == 'true'` (defaulting to false when the key is absent) and extracts
`dead_partitions` and `unavailable_partitions` as integers (each defaulting
to `0` when its key is absent), returning them in the result dictionary. -/
theorem C2_extraction (pairs : List (Str × Str))
    (hwf : ∀ p ∈ pairs, wfPair p)
    (hdead : intOk pairs "dead_partitions".data = true)
    (hunav : intOk pairs "unavailable_partitions".data = true)
    (hns : intOk pairs "ns_cluster_size".data = true) :
    parseNsInfo (encodePairs pairs)
      = some (infoFlag pairs,
          { strong_consistency := infoFlag pairs
            dead_partitions := infoInt pairs "dead_partitions".data
            unavailable_partitions := infoInt pairs "unavailable_partitions".data
            ns_cluster_size := infoInt pairs "ns_cluster_size".data
            replication_factor := (dictGet pairs "replication-factor".data).getD "N/A".data }) := by
  unfold parseNsInfo
  rw [splitCh_filter_encode pairs hwf,
    buildParams_encode pairs (fun p hp => ⟨(hwf p hp).2.2.1, (hwf p hp).2.2.2⟩)]
  show extractInfo pairs = _
  unfold extractInfo
  rw [pyIntGet_of_intOk _ _ hdead, pyIntGet_of_intOk _ _ hunav, pyIntGet_of_intOk _ _ hns]
  rfl

/-- Witness for C2 at a concrete response:
`strong-consistency=true;dead_partitions=0;replication-factor=2`. -/
theorem C2_extraction_witness :
    (∀ p ∈ [("strong-consistency".data, "true".data),
            ("dead_partitions".data, "0".data),
            ("replication-factor".data, "2".data)], wfPair p) ∧
    parseNsInfo (encodePairs
        [("strong-consistency".data, "true".data),
         ("dead_partitions".data, "0".data),
         ("replication-factor".data, "2".data)])
      = some (infoFlag
          [("strong-consistency".data, "true".data),
           ("dead_partitions".data, "0".data),
           ("replication-factor".data, "2".data)],
          { strong_consistency := infoFlag
              [("strong-consistency".data, "true".data),
               ("dead_partitions".data, "0".data),
               ("replication-factor".data, "2".data)]
            dead_partitions := infoInt
              [("strong-consistency".data, "true".data),
               ("dead_partitions".data, "0".data),
               ("replication-factor".data, "2".data)] "dead_partitions".data
            unavailable_partitions := infoInt
              [("strong-consistency".data, "true".data),
               ("dead_partitions".data, "0".data),
               ("replication-factor".data, "2".data)] "unavailable_partitions".data
            ns_cluster_size := infoInt
              [("strong-consistency".data, "true".data),
               ("dead_partitions".data, "0".data),
               ("replication-factor".data, "2".data)] "ns_cluster_size".data
            replication_factor := (dictGet
              [("strong-consistency".data, "true".data),
               ("dead_partitions".data, "0".data),
               ("replication-factor".data, "2".data)] "replication-factor".data).getD "N/A".data }) :=
  ⟨by decide, C2_extraction _ (by decide) (by decide) (by decide) (by decide)⟩

theorem lessons_id_all :
    ((List.range LESSONS.length).all fun j => (LESSONS.getD j ⟨0, []⟩).id == j) = true := by
  decide

theorem lessons_id (j : Nat) (hj : j < LESSONS.length) :
    (LESSONS.getD j ⟨0, []⟩).id = j := by
  have h := lessons_id_all
  rw [List.all_eq_true] at h
  simpa using h j (List.mem_range.mpr hj)

/-- Claim C1 (counterexample): The claim says compact validation is healthy iff
the flag is true and both counters are zero; but the code tests `> 0`, so a
parsed `dead_partitions=-1` yields a healthy verdict although the counter is
not zero. -/
theorem C1_counterexample :
    validator_validate_compact true .ok
        (.returns [⟨none, some "strong-consistency=true;dead_partitions=-1;unavailable_partitions=0".data⟩])
      = some true ∧
    demo_validate_compact true .ok true
        (.returns [⟨none, some "strong-consistency=true;dead_partitions=-1;unavailable_partitions=0".data⟩])
      = some true ∧
    parseNsInfo "strong-consistency=true;dead_partitions=-1;unavailable_partitions=0".data
      = some (true, ⟨true, -1, 0, 0, "N/A".data⟩) ∧
    ¬((-1 : Int) = 0) := by
  decide

/-- Claim C1 (amended): For every parsed namespace-info dictionary, the compact
cluster validation (both the refactored and the monolithic variant) returns
True (healthy) iff the strong-consistency flag is true and neither the
dead-partitions counter nor the unavailable-partitions counter is greater
than zero. -/
theorem C1_amended (resp : List NodeResp) (sc : Bool) (d : NsInfo) (rOk : Bool)
    (h : loopNodes resp = .found sc d) :
    validator_validate_compact true .ok (.returns resp)
        = some (sc && decide (d.dead_partitions ≤ 0) && decide (d.unavailable_partitions ≤ 0)) ∧
    demo_validate_compact true .ok rOk (.returns resp)
        = some (sc && decide (d.dead_partitions ≤ 0) && decide (d.unavailable_partitions ≤ 0)) := by
  have hv : validator_verify_sc_enabled true (.returns resp) = .ret sc (.dict d) := by
    simp [validator_verify_sc_enabled, h]
  have hdm : demo_verify_sc_enabled true (.returns resp) = .ret sc (.dict d) := by
    simp [demo_verify_sc_enabled, h]
  have hh : (!issuesFound sc (.dict d))
      = (sc && decide (d.dead_partitions ≤ 0) && decide (d.unavailable_partitions ≤ 0)) := by
    by_cases h1 : (0 : Int) < d.dead_partitions <;>
      by_cases h2 : (0 : Int) < d.unavailable_partitions <;>
      cases sc <;>
      simp_all [issuesFound, not_lt]
  exact ⟨by simp [validator_validate_compact, validator_connCheck, hv, hh],
         by simp [demo_validate_compact, demo_connCheck, hdm, hh]⟩

/-- Witness for C1 (amended) on a healthy parsed response. -/
theorem C1_amended_witness :
    validator_validate_compact true .ok
        (.returns [⟨none, some "strong-consistency=true;dead_partitions=0;unavailable_partitions=0".data⟩])
      = some ((true : Bool) && decide ((0 : Int) ≤ 0) && decide ((0 : Int) ≤ 0)) ∧
    demo_validate_compact true .ok true
        (.returns [⟨none, some "strong-consistency=true;dead_partitions=0;unavailable_partitions=0".data⟩])
      = some ((true : Bool) && decide ((0 : Int) ≤ 0) && decide ((0 : Int) ≤ 0)) :=
  C1_amended _ true ⟨true, 0, 0, 0, "N/A".data⟩ true (by decide)

/-- Claim C3 (counterexample): On a connection failure (no client handle) the
refactored `ClusterValidator.validate` performs zero reconnect attempts, not
the one attempt the claim asserts of the validator. -/
theorem C3_counterexample :
    connFailure false .ok ∧
    validator_connCheck false .ok = (.failed, 0) ∧
    (0 : Nat) ≠ 1 := by
  exact ⟨Or.inl rfl, rfl, by decide⟩

/-- Claim C3 (amended): On any connection failure, the monolithic
`validate_and_fix_cluster` attempts exactly one reconnect (and returns False
when the reconnect fails), while the refactored `ClusterValidator.validate`
attempts none and reports failure immediately; neither ever attempts more
than one reconnect. -/
theorem C3_amended (hasClient : Bool) (probe : ProbeOutcome) (rOk : Bool) :
    (connFailure hasClient probe →
       (demo_connCheck hasClient probe rOk).2 = 1 ∧
       (rOk = false → demo_connCheck hasClient probe rOk = (.failed, 1)) ∧
       validator_connCheck hasClient probe = (.failed, 0)) ∧
    (demo_connCheck hasClient probe rOk).2 ≤ 1 ∧
    (validator_connCheck hasClient probe).2 = 0 := by
  cases hasClient <;> cases probe <;> cases rOk <;>
    simp [connFailure, demo_connCheck, validator_connCheck]

/-- Witness for C3 (amended): not connected, reconnect fails. -/
theorem C3_amended_witness :
    (demo_connCheck false .ok false).2 = 1 ∧
    demo_connCheck false .ok false = (.failed, 1) ∧
    validator_connCheck false .ok = (.failed, 0) :=
  ⟨((C3_amended false .ok false).1 (Or.inl rfl)).1,
   ((C3_amended false .ok false).1 (Or.inl rfl)).2.1 rfl,
   ((C3_amended false .ok false).1 (Or.inl rfl)).2.2⟩

/-- Claim C4: For every user input line, the menu loop returns `'continue'`
when the stripped, lowercased input is empty, `'c'` or `'continue'`; raises
`SystemExit` when it is `'q'`, `'quit'` or `'exit'`; and any unrecognised
input keeps looping instead of terminating. -/
theorem C4_menu_dispatch (raw : Str) (c : Str) (hc : c = stripLower raw) :
    (c ∈ [([] : Str), "c".data, "continue".data] →
       menuStep (.line raw) = .ret "continue".data) ∧
    (c ∈ ["q".data, "quit".data, "exit".data] → menuStep (.line raw) = .exit 0) ∧
    (c ∉ recognisedChoices → menuStep (.line raw) = .loop none) := by
  subst hc
  refine ⟨?_, ?_, ?_⟩
  · intro h
    simp only [List.mem_cons, List.not_mem_nil, or_false] at h
    show menuLine (stripLower raw) = _
    rcases h with h | h | h <;> rw [h] <;> decide
  · intro h
    simp only [List.mem_cons, List.not_mem_nil, or_false] at h
    show menuLine (stripLower raw) = _
    rcases h with h | h | h <;> rw [h] <;> decide
  · intro h
    simp only [recognisedChoices, List.mem_cons, List.not_mem_nil, or_false, not_or] at h
    obtain ⟨h1, h2, h3, h4, h5, h6, h7, h8, h9, h10, h11, h12, h13, h14, h15⟩ := h
    show menuLine (stripLower raw) = _
    simp [menuLine, h1, h2, h3, h4, h5, h6, h7, h8, h9, h10, h11, h12, h13, h14, h15]

/-- Witness for C4 at concrete inputs `'  Q '`, `'c'` and `'xyz'`. -/
theorem C4_menu_dispatch_witness :
    menuStep (.line " Q ".data) = .exit 0 ∧
    menuStep (.line "c".data) = .ret "continue".data ∧
    menuStep (.line "xyz".data) = .loop none :=
  ⟨(C4_menu_dispatch " Q ".data _ rfl).2.1 (by decide),
   (C4_menu_dispatch "c".data _ rfl).1 (by decide),
   (C4_menu_dispatch "xyz".data _ rfl).2.2 (by decide)⟩

/-- Claim C5 (counterexample): The claim quantifies over every requested list,
but the empty list is falsy in Python, so `if lessons:` falls into the
skip-lesson-0 branch and yields nine lessons rather than the empty
filter. -/
theorem C5_counterexample :
    selectLessons (some []) ≠
      all_lessons.filter (fun e => decide (e.1 ∈ ([] : List Str))) ∧
    selectLessons (some []) = all_lessons.drop 1 := by
  decide

/-- Claim C5 (amended): For every nonempty list of requested lesson numbers,
`run_tutorial`'s selection produces exactly the registry entries whose number
string is in the requested list, in registry order. -/
theorem C5_amended (requested : List Str) (h : requested ≠ []) :
    selectLessons (some requested)
      = all_lessons.filter (fun e => decide (e.1 ∈ requested)) := by
  cases requested with
  | nil => exact absurd rfl h
  | cons a as => rfl

/-- Witness for C5 (amended) with requested lessons 3 and 5. -/
theorem C5_amended_witness :
    ["3".data, "5".data] ≠ ([] : List Str) ∧
    selectLessons (some ["3".data, "5".data])
      = all_lessons.filter (fun e => decide (e.1 ∈ ["3".data, "5".data])) :=
  ⟨by decide, C5_amended _ (by decide)⟩

/-- Claim C6: `GET /api/lessons` returns exactly the full static lesson list,
and `GET /api/lessons/{lesson_id}` returns a payload whose lesson bears the
requested id for every in-range id, and the error payload for every
out-of-range id. -/
theorem C6_endpoints (i : Int) :
    get_lessons = LESSONS ∧
    (0 ≤ i → i < (LESSONS.length : Int) →
       ∃ l, get_lesson i = .lessonPayload l ∧ (l.id : Int) = i) ∧
    (¬(0 ≤ i ∧ i < (LESSONS.length : Int)) →
       get_lesson i = .errorPayload "Lesson not found".data) := by
  refine ⟨rfl, ?_, ?_⟩
  · intro h0 hlt
    refine ⟨LESSONS.getD i.toNat ⟨0, []⟩, ?_, ?_⟩
    · simp only [get_lesson]
      rw [if_pos ⟨h0, hlt⟩]
    · have hnat : i.toNat < LESSONS.length := by omega
      rw [lessons_id i.toNat hnat]
      omega
  · intro h
    simp only [get_lesson]
    rw [if_neg h]

/-- Witness for C6 at ids 3 (in range) and 25 (out of range). -/
theorem C6_endpoints_witness :
    (∃ l, get_lesson 3 = .lessonPayload l ∧ (l.id : Int) = 3) ∧
    get_lesson 25 = .errorPayload "Lesson not found".data :=
  ⟨(C6_endpoints 3).2.1 (by decide) (by decide),
   (C6_endpoints 25).2.2 (by decide)⟩

/-- Claim C7: `verify_sc_enabled` never propagates a client-library failure:
when the info query raises an aerospike client error both implementations
return `(False, str(e))`, and with no client handle both return
`(False, 'Not connected')`. -/
theorem C7_no_propagation (m : Str) (io io2 : InfoAllOutcome) :
    validator_verify_sc_enabled true (.raises .aerospike m) = .ret false (.msg m) ∧
    demo_verify_sc_enabled true (.raises .aerospike m) = .ret false (.msg m) ∧
    validator_verify_sc_enabled false io = .ret false (.msg "Not connected".data) ∧
    demo_verify_sc_enabled false io2 = .ret false (.msg "Not connected".data) :=
  ⟨rfl, rfl, rfl, rfl⟩

/-- Claim C8: End-of-input returns `'continue'` exactly as an empty line does,
a keyboard interrupt raises `SystemExit(0)`, and the menu's read step never
lets any other exception escape. -/
theorem C8_read_handling :
    menuStep .eof = .ret "continue".data ∧
    menuStep .eof = menuStep (.line []) ∧
    menuStep .interrupt = .exit 0 ∧
    ∀ (r : ReadOutcome) (e : Str), menuStep r ≠ .raiseExn e := by
  refine ⟨rfl, by decide, rfl, ?_⟩
  intro r e
  cases r with
  | line s =>
      show menuLine (stripLower s) ≠ _
      unfold menuLine
      (repeat' split) <;> simp
  | eof => simp [menuStep]
  | interrupt => simp [menuStep]

/-- Claim C9: The static web lesson registry has 25 entries whose `id` equals
their list position, which is what makes indexed lookup by id return the
lesson bearing that id. -/
theorem C9_registry_ids :
    LESSONS.length = 25 ∧
    ∀ j : Nat, j < LESSONS.length → (LESSONS.getD j ⟨0, []⟩).id = j :=
  ⟨rfl, lessons_id⟩

/-- Witness for C9 at the last index. -/
theorem C9_registry_ids_witness : (LESSONS.getD 24 ⟨0, []⟩).id = 24 :=
  C9_registry_ids.2 24 (by decide)

/-- Claim C10 (counterexample): On a response map returned without raising but
whose result string fails integer conversion, the refactored implementation
returns `(False, message)` while the monolithic one propagates the
`ValueError`: the results are not equal. -/
theorem C10_counterexample :
    validator_verify_sc_enabled true (.returns [⟨none, some "dead_partitions=x".data⟩])
      = .ret false (.msg valueErrorMsg) ∧
    demo_verify_sc_enabled true (.returns [⟨none, some "dead_partitions=x".data⟩])
      = .exn .other valueErrorMsg ∧
    demo_verify_sc_enabled true (.returns [⟨none, some "dead_partitions=x".data⟩])
      ≠ validator_verify_sc_enabled true (.returns [⟨none, some "dead_partitions=x".data⟩]) := by
  decide

/-- Claim C10 (amended): For every client whose `info_all` call returns the
same response map without raising, and whose selected result (if any) parses
without a conversion error, the two `verify_sc_enabled` implementations
return equal `(flag, info)` results; they differ only in which raised
exception classes they convert to a `(False, message)` result. -/
theorem C10_amended (hasClient : Bool) (resp : List NodeResp)
    (h : loopRaises resp = false) :
    demo_verify_sc_enabled hasClient (.returns resp)
      = validator_verify_sc_enabled hasClient (.returns resp) := by
  cases hasClient with
  | false => rfl
  | true =>
      unfold demo_verify_sc_enabled validator_verify_sc_enabled
      cases hl : loopNodes resp with
      | raiseErr m =>
          unfold loopRaises at h
          rw [hl] at h
          simp at h
      | found f d => simp [hl]
      | noneFound => simp [hl]

/-- Witness for C10 (amended) on a cleanly parsing response. -/
theorem C10_amended_witness :
    demo_verify_sc_enabled true (.returns [⟨none, some "strong-consistency=true".data⟩])
      = validator_verify_sc_enabled true (.returns [⟨none, some "strong-consistency=true".data⟩]) :=
  C10_amended true _ (by decide)

end SCDemo
